import Mathlib

/-!
Verification of the Coursera transcript summarizer (`src/app.py`).

The development shallowly embeds the three components of the program:

* `summarize_full_text` — builds the chat-completion payload (fixed prompt
  template interpolated with the transcript, fixed model identifier, fixed
  sampling temperature), posts it, and returns either the message content
  (HTTP 200) or an `"ERROR: <status> - <body>"` string;
* `create_pdf` — the line classifier / document renderer that maps summary
  lines to heading / bullet / paragraph blocks and appends a trailing spacer;
* the main workflow — a session-scoped single-slot cache of the summary,
  invalidated by the regenerate action, with an error short-circuit
  (`st.stop()`) and a PDF download action.

Python string primitives used by the program (`str.strip`, `str.lower`,
`str.startswith`, `str.replace`, `str.split`, and the two `re.sub` calls)
are embedded as executable Lean functions on the character lists underlying
`String`.
-/

/-- Characters stripped by Python `str.strip()` (i.e. those with
`str.isspace() == True`): ASCII whitespace, the C1 separator controls,
NEL, NBSP and the Unicode space/line/paragraph separators. -/
def isPySpace (c : Char) : Bool :=
  c = ' ' || c = '\t' || c = '\n' || c = '\x0d' || c = '\x0b' || c = '\x0c' ||
  c = '\x1c' || c = '\x1d' || c = '\x1e' || c = '\x1f' || c = '\x85' || c = '\xa0' ||
  c = ' ' || c = ' ' || c = ' ' || c = ' ' || c = ' ' ||
  c = ' ' || c = ' ' || c = ' ' || c = ' ' || c = ' ' ||
  c = ' ' || c = ' ' || c = ' ' || c = ' ' || c = ' ' ||
  c = ' ' || c = '　'

/-- Python `str.strip()` on a character list: drop whitespace from both ends. -/
def pyStripL (l : List Char) : List Char :=
  ((l.dropWhile isPySpace).reverse.dropWhile isPySpace).reverse

/-- Python `str.strip()`. -/
def pyStrip (s : String) : String := ⟨pyStripL s.data⟩

/-- Python `str.lower()`, restricted to the ASCII case mapping (the only case
mapping the program's refusal-phrase comparison can exercise, the phrase
being pure ASCII). -/
def pyLower (s : String) : String := ⟨s.data.map Char.toLower⟩

/-- Python `s.startswith(p)`. -/
def pyStartsWith (s p : String) : Bool := p.data.isPrefixOf s.data

/-- Python `s.split("\n")` on a character list. -/
def splitLinesL : List Char → List (List Char)
  | [] => [[]]
  | c :: rest =>
    match splitLinesL rest with
    | [] => [[c]]
    | l :: ls => if c = '\n' then [] :: l :: ls else (c :: l) :: ls

/-- Python `s.split("\n")`: the list of lines of `s`. -/
def pySplitLines (s : String) : List String := (splitLinesL s.data).map String.mk

/-- Python `s.replace("##", "")`: delete the occurrences of `"##"`,
scanning left to right, non-overlapping. -/
def replaceHashHashL : List Char → List Char
  | '#' :: '#' :: rest => replaceHashHashL rest
  | c :: rest => c :: replaceHashHashL rest
  | [] => []

/-- Python `line.replace("##", "")`. -/
def replaceHashHash (s : String) : String := ⟨replaceHashHashL s.data⟩

/-! ## The summarization call (`summarize_full_text`, app.py lines 26–53) -/

/-- `MODEL_NAME` (app.py line 13). -/
def MODEL_NAME : String := "meta-llama/llama-4-scout-17b-16e-instruct"

/-- The part of the f-string prompt template (app.py lines 32–41) that
precedes the interpolated transcript `{text}`. -/
def promptPre : String :=
  "\n    Summarize the following Coursera transcript into a neat, concise handout suitable for revision.\n    Organize the information logically with clear headings and concise paragraphs or standard bullet points.\n    Focus on key concepts, important definitions, procedures, and significant points.\n    Do not use specific labels like \x27Key Takeaway:\x27, \x27Example:\x27, \x27Tip:\x27, or \x27Note:\x27.\n    Ensure the summary is easy to read and understand for a revision purpose.\n    Only return the clean, summarized content. Do not repeat this prompt or add extra instructions or conversational text.\n\n    \"\"\"\n"

/-- The part of the f-string prompt template that follows `{text}`. -/
def promptPost : String := "\n\"\"\"\n    "

/-- The full prompt: the fixed template interpolated with the transcript. -/
def build_prompt (text : String) : String := promptPre ++ text ++ promptPost

/-- One element of the `messages` array of the request body. -/
structure Message where
  role : String
  content : String
deriving DecidableEq, Repr

/-- The JSON request body built by `summarize_full_text`
(app.py lines 43–47): `{model, messages, temperature}`. -/
structure Payload where
  model : String
  messages : List Message
  temperature : ℚ
deriving DecidableEq, Repr

/-- The request body for a given transcript (app.py lines 43–47). -/
def build_payload (text : String) : Payload :=
  { model := MODEL_NAME
    messages := [{ role := "user", content := build_prompt text }]
    temperature := 3 / 10 }

/-- Abstraction of the HTTP response observed by `summarize_full_text`:
its status code, its raw body (`response.text`), and the nested
`choices[0].message.content` field of its JSON body. -/
structure HttpResponse where
  status_code : Nat
  text : String
  content : String

/-- `summarize_full_text` (app.py lines 26–53), parameterized by the HTTP
layer `post` (the behaviour of `requests.post` at the fixed URL): builds the
payload for the transcript, posts it, and returns the message content on a
200 status, otherwise the string `f"ERROR: {status_code} - {text}"`. -/
def summarize_full_text (post : Payload → HttpResponse) (text : String) : String :=
  let response := post (build_payload text)
  if response.status_code = 200 then
    response.content
  else
    "ERROR: " ++ toString response.status_code ++ " - " ++ response.text

/-! ## The line classifier / document renderer (`create_pdf`, app.py lines 56–123) -/

/-- The bullet-marker characters of the class `[\*\-\•]` in the regex
`re.sub(r"^[\*\-\•]+\s*", "", line)` (app.py line 110). -/
def isBulletChar (c : Char) : Bool := c = '*' || c = '-' || c = '•'

/-- `re.sub(r"^[\*\-\•]+\s*", "", line)` on a character list: delete the
leading run of bullet-marker characters and the whitespace run that follows
it (the regex is anchored, so at most one match exists; when the list does
not start with a bullet-marker character the regex does not match and the
list is unchanged, which the `dropWhile` composition also yields). -/
def dropBulletMarksL (l : List Char) : List Char :=
  (l.dropWhile isBulletChar).dropWhile isPySpace

/-- Find the first occurrence of `"**"`: returns the characters before it
and the characters after it, or `none` when there is no occurrence. -/
def splitAtStars : List Char → Option (List Char × List Char)
  | [] => none
  | [_] => none
  | c :: d :: rest =>
    if c = '*' && d = '*' then some ([], rest)
    else
      match splitAtStars (d :: rest) with
      | none => none
      | some (pre, post) => some (c :: pre, post)

theorem splitAtStars_length :
    ∀ l pre post, splitAtStars l = some (pre, post) → post.length + 2 ≤ l.length := by
  intro l
  induction l with
  | nil => intro pre post h; simp [splitAtStars] at h
  | cons c rest ih =>
    cases rest with
    | nil => intro pre post h; simp [splitAtStars] at h
    | cons d rest2 =>
      intro pre post h
      simp only [splitAtStars] at h
      split at h
      · obtain ⟨-, rfl⟩ := Option.some.inj h
        simp
      · split at h
        · exact absurd h (by simp)
        · next p2 q2 heq =>
          obtain ⟨-, rfl⟩ := Option.some.inj h
          have := ih p2 post heq
          simpa using Nat.le_succ_of_le this

/-- `re.sub(r"\*\*(.*?)\*\*", r"<b>\1</b>", s)` on a character list: repeatedly
find the leftmost `"**"`, the non-greedy closing `"**"` after it, and replace
the span with `<b>…</b>`; when no further pair of markers exists the remainder
is unchanged.  (Lines never contain a newline — they come from a `"\n"` split —
so the `.` of the pattern never meets the one character it would not match.) -/
def applyBoldAux : ℕ → List Char → List Char
  | 0, cs => cs
  | fuel + 1, cs =>
    match splitAtStars cs with
    | none => cs
    | some (pre, rest1) =>
      match splitAtStars rest1 with
      | none => cs
      | some (inner, rest2) =>
        pre ++ ('<' :: 'b' :: '>' :: []) ++ inner ++
          ('<' :: '/' :: 'b' :: '>' :: []) ++ applyBoldAux fuel rest2

/-- Any fuel at least the length of the list yields the same result: each
replacement consumes at least four characters, so `cs.length` bounds the
number of replacements and `applyBoldAux` never runs out of fuel. -/
theorem applyBoldAux_fuel :
    ∀ fuel₁ fuel₂ cs, cs.length ≤ fuel₁ → cs.length ≤ fuel₂ →
      applyBoldAux fuel₁ cs = applyBoldAux fuel₂ cs := by
  intro fuel₁
  induction fuel₁ using Nat.strong_induction_on with
  | _ fuel₁ ih =>
    intro fuel₂ cs h₁ h₂
    match fuel₁, h₁ with
    | 0, h₁ =>
      obtain rfl : cs = [] := List.length_eq_zero.mp (Nat.le_zero.mp h₁)
      cases fuel₂ <;> simp [applyBoldAux, splitAtStars]
    | f + 1, h₁ =>
      cases fuel₂ with
      | zero =>
        obtain rfl : cs = [] := List.length_eq_zero.mp (Nat.le_zero.mp h₂)
        simp [applyBoldAux, splitAtStars]
      | succ g =>
        simp only [applyBoldAux]
        match hs : splitAtStars cs with
        | none => rfl
        | some (pre, rest1) =>
          match hs2 : splitAtStars rest1 with
          | none => simp [hs2]
          | some (inner, rest2) =>
            have l1 := splitAtStars_length cs pre rest1 hs
            have l2 := splitAtStars_length rest1 inner rest2 hs2
            have hrec : applyBoldAux f rest2 = applyBoldAux g rest2 :=
              ih f (Nat.lt_succ_self f) g rest2 (by omega) (by omega)
            simp [hs2, hrec]

/-- `re.sub(r"\*\*(.*?)\*\*", r"<b>\1</b>", s)` on a character list, run with
fuel `l.length` (sufficient by `applyBoldAux_fuel`). -/
def applyBoldL (l : List Char) : List Char := applyBoldAux l.length l

/-- `re.sub(r"\*\*(.*?)\*\*", r"<b>\1</b>", s)` (app.py lines 112 and 117). -/
def applyBold (s : String) : String := ⟨applyBoldL s.data⟩

/-- One styled flowable of the PDF story: a `Paragraph` with the `Heading2`,
`BulletStyle` or `BodyText` style, or a `Spacer` (width and height). -/
inductive Block where
  | heading : String → Block
  | bullet : String → Block
  | para : String → Block
  | spacer : ℕ → ℕ → Block
deriving DecidableEq, Repr

/-- The loop body of `create_pdf` (app.py lines 100–118) applied to an
already-stripped line: drop empty and refusal lines, classify `##` lines as
headings with every `"##"` deleted and the result stripped, classify
bullet-marker lines as bullets with the marker run stripped and bold markup
rewritten, and everything else as a body paragraph with bold markup
rewritten. -/
def classifyLine (line : String) : Option Block :=
  if line = "" || pyStartsWith (pyLower line) "please provide the transcript" then
    none
  else if pyStartsWith line "##" then
    some (.heading (pyStrip (replaceHashHash line)))
  else if pyStartsWith line "* " || pyStartsWith line "- " || pyStartsWith line "• " then
    some (.bullet ("• " ++ applyBold (pyStrip ⟨dropBulletMarksL line.data⟩)))
  else
    some (.para (applyBold line))

/-- One iteration of the `for line in lines` loop of `create_pdf`
(app.py lines 99–118): the line is stripped, then classified; `none` means the
iteration appends nothing to the story. -/
def renderLine (rawLine : String) : Option Block := classifyLine (pyStrip rawLine)

/-- The story built by `create_pdf` (app.py lines 97–120): the blocks of the
lines of the stripped summary, in order, followed by `Spacer(1, 20)`. -/
def create_pdf_story (summary_text : String) : List Block :=
  ((pySplitLines (pyStrip summary_text)).filterMap renderLine) ++ [Block.spacer 1 20]

/-! ## The main workflow (app.py lines 126–161) -/

/-- The session state: the single cached-summary slot
`st.session_state.full_summary_cached` (`none` both before the slot is first
initialized and after the regenerate action clears it). -/
structure SessionState where
  full_summary_cached : Option String
deriving DecidableEq, Repr

/-- What one rerun of the script body produces: the session state it leaves
behind, the number of remote summarization requests it issued, the error
string it displayed via `st.error` (if any), and the PDF story it built for
the download action (`none` when `st.stop()` halted the run first). -/
structure RunOutcome where
  state : SessionState
  requests : ℕ
  displayed_error : Option String
  pdf_story : Option (List Block)
deriving DecidableEq, Repr

/-- One rerun of the main workflow with a transcript uploaded and no button
press (app.py lines 127–161): with a cached summary present the remote call is
skipped and the PDF is built from the cache; with the slot empty one
`summarize_full_text` request is issued, an `"ERROR…"` result is displayed and
halts the run (`st.stop()`) leaving the slot empty, and a successful result is
cached and rendered. -/
def rerun (post : Payload → HttpResponse) (transcript : String) (s : SessionState) :
    RunOutcome :=
  match s.full_summary_cached with
  | some summary =>
    { state := s, requests := 0, displayed_error := none,
      pdf_story := some (create_pdf_story summary) }
  | none =>
    let summary := summarize_full_text post transcript
    if pyStartsWith summary "ERROR" then
      { state := s, requests := 1, displayed_error := some summary, pdf_story := none }
    else
      { state := { full_summary_cached := some summary }, requests := 1,
        displayed_error := none, pdf_story := some (create_pdf_story summary) }

/-- The regenerate action (app.py lines 151–153): clear the cached summary
slot (the subsequent `st.rerun()` is modelled by applying `rerun` to the
resulting state). -/
def regenerate (_ : SessionState) : SessionState := { full_summary_cached := none }

/-- The `file_name` of the download action (app.py line 159):
`f"{pdf_name.strip() or 'summary'}.pdf"`. -/
def download_file_name (pdf_name : String) : String :=
  (if pyStrip pdf_name = "" then "summary" else pyStrip pdf_name) ++ ".pdf"

example : applyBold "**Term**: definition" = "<b>Term</b>: definition" := by decide
example : applyBold "a**b**c**d" = "a<b>b</b>c**d" := by decide
example : applyBold "****" = "<b></b>" := by decide
example : applyBold "***" = "***" := by decide
example : renderLine "## Key Points" = some (.heading "Key Points") := by decide
example : renderLine "### Topic" = some (.heading "# Topic") := by decide
example : renderLine "* **Term**: definition" =
    some (.bullet "• <b>Term</b>: definition") := by decide
example : renderLine "   " = none := by decide
example : renderLine "Please provide the transcript." = none := by decide
example : renderLine "plain **text** here" = some (.para "plain <b>text</b> here") := by
  decide
example : create_pdf_story "" = [Block.spacer 1 20] := by decide
example : download_file_name "  " = "summary.pdf" := by decide
example : download_file_name " notes " = "notes.pdf" := by decide
example : pyStrip "  a b  " = "a b" := by decide
example : pySplitLines "a\nb\n" = ["a", "b", ""] := by decide
example : replaceHashHash "### Topic" = "# Topic" := by decide
example : pyStartsWith "ERROR: 404" "ERROR" = true := by decide
example :
    summarize_full_text (fun _ => ⟨500, "boom", "c"⟩) "t" = "ERROR: 500 - boom" := by
  decide
example : summarize_full_text (fun _ => ⟨200, "body", "c"⟩) "t" = "c" := by decide

/-! ## Theorems -/

theorem pyStartsWith_ERROR_append (s t : String) :
    pyStartsWith ("ERROR: " ++ s ++ " - " ++ t) "ERROR" = true := by
  rw [pyStartsWith, List.isPrefixOf_iff_prefix]
  have h1 : ("ERROR: " : String).data =
      ('E' :: 'R' :: 'R' :: 'O' :: 'R' :: []) ++ (':' :: ' ' :: []) := rfl
  have h2 : ("ERROR" : String).data = 'E' :: 'R' :: 'R' :: 'O' :: 'R' :: [] := rfl
  refine ⟨(':' :: ' ' :: []) ++ s.data ++ " - ".data ++ t.data, ?_⟩
  simp [String.data_append, h1, h2]

/-- C1: for every transcript string, the request body built by the
summarization call has the fixed model identifier, the fixed sampling
temperature, and a single user message whose content is the fixed
instructional template with the transcript embedded unmodified, character
for character, between the template's two fixed halves. -/
theorem summarization_request_embeds_transcript (text : String) :
    (build_payload text).model = MODEL_NAME ∧
    (build_payload text).temperature = 3 / 10 ∧
    ∃ msg, (build_payload text).messages = [msg] ∧ msg.role = "user" ∧
      msg.content.data = promptPre.data ++ text.data ++ promptPost.data := by
  refine ⟨rfl, rfl, ⟨_, rfl, rfl, ?_⟩⟩
  simp [build_payload, build_prompt, String.data_append]

/-- C2: for every HTTP response with a status code other than 200, the
summarization call returns exactly the string
`"ERROR: <status> - <raw body>"` — which starts with `"ERROR"` and carries
the status code and the raw response body — and on a 200 status it returns
the message-content field of the response. -/
theorem summarize_error_string_spec (post : Payload → HttpResponse) (text : String) :
    ((post (build_payload text)).status_code ≠ 200 →
        summarize_full_text post text =
          "ERROR: " ++ toString (post (build_payload text)).status_code ++ " - " ++
            (post (build_payload text)).text ∧
        pyStartsWith (summarize_full_text post text) "ERROR" = true) ∧
    ((post (build_payload text)).status_code = 200 →
        summarize_full_text post text = (post (build_payload text)).content) := by
  constructor
  · intro h
    have he : summarize_full_text post text =
        "ERROR: " ++ toString (post (build_payload text)).status_code ++ " - " ++
          (post (build_payload text)).text := by
      simp [summarize_full_text, h]
    exact ⟨he, by rw [he]; exact pyStartsWith_ERROR_append _ _⟩
  · intro h
    simp [summarize_full_text, h]

theorem summarize_error_string_spec_witness :
    summarize_full_text (fun _ => ⟨404, "not found", "c"⟩) "t" = "ERROR: 404 - not found" ∧
    pyStartsWith (summarize_full_text (fun _ => ⟨404, "not found", "c"⟩) "t") "ERROR" = true ∧
    summarize_full_text (fun _ => ⟨200, "", "content"⟩) "t" = "content" := by
  have h := summarize_error_string_spec (fun _ => ⟨404, "not found", "c"⟩) "t"
  have h200 := summarize_error_string_spec (fun _ => ⟨200, "", "content"⟩) "t"
  obtain ⟨he, hsw⟩ := h.1 (by decide)
  exact ⟨he.trans (by decide), hsw, h200.2 rfl⟩

/-- C3: the regenerate action clears the cached summary slot; the rerun that
follows it issues exactly one remote summarization request; and a rerun that
starts while a cached summary exists issues no remote request. -/
theorem regenerate_clears_and_single_request (post : Payload → HttpResponse)
    (transcript : String) (s : SessionState) :
    (regenerate s).full_summary_cached = none ∧
    (rerun post transcript (regenerate s)).requests = 1 ∧
    (∀ v, s.full_summary_cached = some v → (rerun post transcript s).requests = 0) := by
  refine ⟨rfl, ?_, ?_⟩
  · simp only [rerun, regenerate]
    split <;> rfl
  · intro v hv
    simp [rerun, hv]

theorem regenerate_clears_and_single_request_witness :
    (regenerate ⟨some "s"⟩).full_summary_cached = none ∧
    (rerun (fun _ => ⟨200, "", "ok"⟩) "t" (regenerate ⟨some "s"⟩)).requests = 1 ∧
    (rerun (fun _ => ⟨200, "", "ok"⟩) "t" ⟨some "s"⟩).requests = 0 := by
  obtain ⟨h1, h2, h3⟩ :=
    regenerate_clears_and_single_request (fun _ => ⟨200, "", "ok"⟩) "t" ⟨some "s"⟩
  exact ⟨h1, h2, h3 "s" rfl⟩

/-- C4: on a run with an empty cache slot, if the summarization call returns
an `"ERROR"`-prefixed string the workflow displays that string and halts: the
cache slot stays empty and no PDF story is produced; and the slot is assigned
(with the returned summary) exactly when the call does not return an error
string. -/
theorem error_halts_run (post : Payload → HttpResponse) (transcript : String)
    (s : SessionState) (hc : s.full_summary_cached = none) :
    (pyStartsWith (summarize_full_text post transcript) "ERROR" = true →
        (rerun post transcript s).displayed_error =
          some (summarize_full_text post transcript) ∧
        (rerun post transcript s).state.full_summary_cached = none ∧
        (rerun post transcript s).pdf_story = none) ∧
    (pyStartsWith (summarize_full_text post transcript) "ERROR" = false →
        (rerun post transcript s).state.full_summary_cached =
          some (summarize_full_text post transcript)) := by
  constructor <;> intro h <;> simp [rerun, hc, h]

theorem error_halts_run_witness :
    (rerun (fun _ => ⟨500, "boom", "c"⟩) "t" ⟨none⟩).displayed_error =
        some (summarize_full_text (fun _ => ⟨500, "boom", "c"⟩) "t") ∧
    (rerun (fun _ => ⟨500, "boom", "c"⟩) "t" ⟨none⟩).state.full_summary_cached = none ∧
    (rerun (fun _ => ⟨500, "boom", "c"⟩) "t" ⟨none⟩).pdf_story = none ∧
    (rerun (fun _ => ⟨200, "", "ok"⟩) "t" ⟨none⟩).state.full_summary_cached =
        some (summarize_full_text (fun _ => ⟨200, "", "ok"⟩) "t") := by
  have h1 := (error_halts_run (fun _ => ⟨500, "boom", "c"⟩) "t" ⟨none⟩ rfl).1 (by decide)
  have h2 := (error_halts_run (fun _ => ⟨200, "", "ok"⟩) "t" ⟨none⟩ rfl).2 (by decide)
  exact ⟨h1.1, h1.2.1, h1.2.2, h2⟩

theorem ne_empty_of_data_cons (s : String) (c : Char) (t : List Char)
    (hd : s.data = c :: t) : ¬ s = "" := by
  intro he
  rw [he] at hd
  exact absurd hd (by simp)

theorem refusal_check_false (s : String) (c : Char) (t : List Char)
    (hd : s.data = c :: t) (hc : ('p' == Char.toLower c) = false) :
    pyStartsWith (pyLower s) "please provide the transcript" = false := by
  have hp : ("please provide the transcript" : String).data =
      'p' :: "lease provide the transcript".data := rfl
  rw [pyStartsWith, pyLower]
  show ("please provide the transcript" : String).data.isPrefixOf
      (s.data.map Char.toLower) = false
  rw [hp, hd, List.map_cons, List.isPrefixOf, hc, Bool.false_and]

theorem hash_check_false (s : String) (c : Char) (t : List Char)
    (hd : s.data = c :: t) (hc : ('#' == c) = false) :
    pyStartsWith s "##" = false := by
  rw [pyStartsWith]
  have hh : ("##" : String).data = '#' :: '#' :: [] := rfl
  rw [hh, hd, List.isPrefixOf, hc, Bool.false_and]

theorem classifyLine_heading (s : String) (h : pyStartsWith s "##" = true) :
    classifyLine s = some (.heading (pyStrip (replaceHashHash s))) := by
  obtain ⟨t, ht⟩ : ∃ t, s.data = '#' :: '#' :: t := by
    rw [pyStartsWith, List.isPrefixOf_iff_prefix] at h
    obtain ⟨t, ht⟩ := h
    exact ⟨t, ht.symm⟩
  have hne := ne_empty_of_data_cons s '#' ('#' :: t) ht
  have href := refusal_check_false s '#' ('#' :: t) ht rfl
  rw [classifyLine]
  simp [hne, href, h]

theorem classifyLine_bullet (s : String)
    (h : (pyStartsWith s "* " || pyStartsWith s "- " || pyStartsWith s "• ") = true) :
    classifyLine s = some (.bullet ("• " ++ applyBold (pyStrip ⟨dropBulletMarksL s.data⟩))) := by
  obtain ⟨c, t, ht, hcp, hch⟩ :
      ∃ c t, s.data = c :: t ∧ ('p' == Char.toLower c) = false ∧ ('#' == c) = false := by
    rcases Bool.or_eq_true_iff.mp h with h' | hbul
    · rcases Bool.or_eq_true_iff.mp h' with hast | hdash
      · rw [pyStartsWith, List.isPrefixOf_iff_prefix] at hast
        obtain ⟨t, ht⟩ := hast
        exact ⟨'*', ' ' :: t, ht.symm, rfl, rfl⟩
      · rw [pyStartsWith, List.isPrefixOf_iff_prefix] at hdash
        obtain ⟨t, ht⟩ := hdash
        exact ⟨'-', ' ' :: t, ht.symm, rfl, rfl⟩
    · rw [pyStartsWith, List.isPrefixOf_iff_prefix] at hbul
      obtain ⟨t, ht⟩ := hbul
      exact ⟨'•', ' ' :: t, ht.symm, rfl, rfl⟩
  have hne := ne_empty_of_data_cons s c t ht
  have href := refusal_check_false s c t ht hcp
  have hhash := hash_check_false s c t ht hch
  rw [classifyLine]
  simp [hne, href, hhash, h]

theorem pyStripL_eq_nil_of_all (l : List Char) (h : l.all isPySpace = true) :
    pyStripL l = [] := by
  rw [pyStripL]
  have h1 : l.dropWhile isPySpace = [] :=
    List.dropWhile_eq_nil_iff.mpr (fun a ha => (List.all_eq_true.mp h) a ha)
  simp [h1]

theorem all_pySpace_of_pyStripL_nil (l : List Char) (h : pyStripL l = []) :
    l.all isPySpace = true := by
  rw [pyStripL] at h
  have h1 : (l.dropWhile isPySpace).reverse.dropWhile isPySpace = [] := by
    have := congrArg List.reverse h
    simpa using this
  have h2 := List.dropWhile_eq_nil_iff.mp h1
  have h3 : ∀ x ∈ l.dropWhile isPySpace, isPySpace x := by
    intro x hx
    exact h2 x (List.mem_reverse.mpr hx)
  rw [List.all_eq_true]
  intro x hx
  rcases List.mem_append.mp
      ((List.takeWhile_append_dropWhile isPySpace l) ▸ hx) with hx' | hx'
  · exact List.mem_takeWhile_imp hx'
  · exact h3 x hx'

/-- A Bool-valued test for the `Spacer` constructor. -/
def isSpacer : Block → Bool
  | .spacer _ _ => true
  | _ => false

theorem renderLine_not_spacer (line : String) (b : Block)
    (h : renderLine line = some b) : isSpacer b = false := by
  rw [renderLine, classifyLine] at h
  split at h
  · exact absurd h (by simp)
  · split at h
    · obtain rfl := Option.some.inj h; rfl
    · split at h
      · obtain rfl := Option.some.inj h; rfl
      · obtain rfl := Option.some.inj h; rfl

/-- C5 (counterexample): the line `"## A ## B"` trimmed begins with `"## "`,
but its heading block's text is `"A  B"` — the code deletes the mid-line
`"##"` too and re-trims — which is not the line with the leading `"## "`
marker removed (`"A ## B"`). -/
theorem heading_marker_removal_counterexample :
    pyStartsWith (pyStrip "## A ## B") "## " = true ∧
    renderLine "## A ## B" = some (.heading "A  B") ∧
    "A  B" ≠ "A ## B" := by decide

/-- C5 (amended): for every summary line that, after trimming, begins with
`"## "`, the renderer produces a heading block whose text is the trimmed line
with every (left-to-right, non-overlapping) occurrence of `"##"` deleted and
the result whitespace-trimmed; in particular `"## Key Points"` yields the
heading text `"Key Points"`. -/
theorem heading_line_spec (line : String)
    (h : pyStartsWith (pyStrip line) "## " = true) :
    renderLine line = some (.heading (pyStrip (replaceHashHash (pyStrip line)))) ∧
    renderLine "## Key Points" = some (.heading "Key Points") := by
  refine ⟨?_, by decide⟩
  rw [renderLine]
  apply classifyLine_heading
  rw [pyStartsWith, List.isPrefixOf_iff_prefix] at h ⊢
  exact List.IsPrefix.trans ⟨[' '], rfl⟩ h

theorem heading_line_spec_witness :
    renderLine "## Key Points" =
      some (.heading (pyStrip (replaceHashHash (pyStrip "## Key Points")))) ∧
    renderLine "## Key Points" = some (.heading "Key Points") :=
  heading_line_spec "## Key Points" (by decide)

/-- C10: for every summary line that, after trimming, begins with `"##"`
(with or without a following space), the renderer classifies it as a heading
whose text is the trimmed line with every occurrence of the substring `"##"`
deleted (left to right, non-overlapping) and the result whitespace-trimmed;
in particular `"### Topic"` yields `"# Topic"`, and a mid-line `"##"` is also
removed. -/
theorem heading_any_hashes_spec (line : String)
    (h : pyStartsWith (pyStrip line) "##" = true) :
    renderLine line = some (.heading (pyStrip (replaceHashHash (pyStrip line)))) ∧
    renderLine "### Topic" = some (.heading "# Topic") ∧
    renderLine "## Intro ## More" = some (.heading "Intro  More") := by
  exact ⟨classifyLine_heading _ h, by decide, by decide⟩

theorem heading_any_hashes_spec_witness :
    renderLine "### Topic" =
      some (.heading (pyStrip (replaceHashHash (pyStrip "### Topic")))) ∧
    renderLine "### Topic" = some (.heading "# Topic") ∧
    renderLine "## Intro ## More" = some (.heading "Intro  More") :=
  heading_any_hashes_spec "### Topic" (by decide)

/-- C6: for every summary line that, after trimming, begins with one of the
three bullet markers followed by a space, the renderer produces a bullet
block whose text is the bullet glyph followed by the line with its leading
marker run (and following whitespace) stripped and every `**…**` span
rewritten to `<b>…</b>`; in particular `"* **Term**: definition"` yields the
bullet text `"• <b>Term</b>: definition"` — bold-wrapped `Term` followed by
the literal `": definition"`. -/
theorem bullet_line_spec (line : String)
    (h : (pyStartsWith (pyStrip line) "* " || pyStartsWith (pyStrip line) "- " ||
          pyStartsWith (pyStrip line) "• ") = true) :
    renderLine line =
      some (.bullet ("• " ++ applyBold (pyStrip ⟨dropBulletMarksL (pyStrip line).data⟩))) ∧
    renderLine "* **Term**: definition" = some (.bullet "• <b>Term</b>: definition") :=
  ⟨classifyLine_bullet _ h, by decide⟩

theorem bullet_line_spec_witness :
    renderLine "* **Term**: definition" =
      some (.bullet ("• " ++ applyBold
        (pyStrip ⟨dropBulletMarksL (pyStrip "* **Term**: definition").data⟩))) ∧
    renderLine "* **Term**: definition" = some (.bullet "• <b>Term</b>: definition") :=
  bullet_line_spec "* **Term**: definition" (by decide)

/-- C7: a summary line consisting only of whitespace, and a summary line
that after trimming begins (case-insensitively) with
`"please provide the transcript"`, produce no block. -/
theorem blank_and_refusal_dropped (line : String)
    (h : line.data.all isPySpace = true ∨
         pyStartsWith (pyLower (pyStrip line)) "please provide the transcript" = true) :
    renderLine line = none := by
  rw [renderLine, classifyLine]
  rcases h with h | h
  · have hz : pyStrip line = "" := by
      rw [pyStrip, pyStripL_eq_nil_of_all _ h]
    simp [hz]
  · simp [h]

theorem blank_and_refusal_dropped_witness :
    renderLine "  \t " = none ∧
    renderLine " Please provide the transcript so I can summarize it." = none :=
  ⟨blank_and_refusal_dropped _ (Or.inl (by decide)),
   blank_and_refusal_dropped _ (Or.inr (by decide))⟩

/-- C8: for every summary text the story built by the renderer ends with the
vertical spacer `Spacer(1, 20)`, that spacer is the only spacer block of the
story (every line-derived block is a heading, bullet or paragraph), and on
the empty summary the story is the spacer alone. -/
theorem story_trailing_spacer (summary : String) :
    (create_pdf_story summary).getLast? = some (Block.spacer 1 20) ∧
    ((create_pdf_story summary).filter isSpacer).length = 1 ∧
    create_pdf_story "" = [Block.spacer 1 20] := by
  refine ⟨?_, ?_, by decide⟩
  · rw [create_pdf_story]
    exact List.getLast?_concat _
  · rw [create_pdf_story, List.filter_append]
    have hnil :
        ((pySplitLines (pyStrip summary)).filterMap renderLine).filter isSpacer = [] := by
      rw [List.filter_eq_nil_iff]
      intro b hb
      obtain ⟨l, -, hr⟩ := List.mem_filterMap.mp hb
      simp [renderLine_not_spacer l b hr]
    rw [hnil]
    rfl

/-- C9: the download action names the PDF payload by the whitespace-trimmed
filename field with `".pdf"` appended, defaulting to `"summary.pdf"` whenever
the field is empty or whitespace-only. -/
theorem download_name_spec (name : String) :
    (name.data.all isPySpace = true → download_file_name name = "summary.pdf") ∧
    (name.data.all isPySpace = false →
      download_file_name name = pyStrip name ++ ".pdf") := by
  constructor
  · intro h
    have hz : pyStrip name = "" := by
      rw [pyStrip, pyStripL_eq_nil_of_all _ h]
    rw [download_file_name, if_pos hz]
    rfl
  · intro h
    have hne : ¬ pyStrip name = "" := by
      intro he
      have hdata : pyStripL name.data = [] := by
        have := congrArg String.data he
        simpa [pyStrip] using this
      rw [all_pySpace_of_pyStripL_nil _ hdata] at h
      simp at h
    rw [download_file_name, if_neg hne]

theorem download_name_spec_witness :
    download_file_name " " = "summary.pdf" ∧
    download_file_name " notes " = pyStrip " notes " ++ ".pdf" :=
  ⟨(download_name_spec " ").1 (by decide), (download_name_spec " notes ").2 (by decide)⟩
